import Mathlib

/-!
# Verification of the idgenz bulk generator pipeline

Shallow embedding of the bulk record import, photo-matching, validation and
batch-export pipeline of the idgenz repository:

* `src/components/id-card/bulk/types.ts` — data model (`BulkRecord`,
  `PhotoMapping`, `ValidationResult`, `ExportProgress`);
* `src/components/id-card/bulk/BulkDataImport.tsx` — CSV tokenizer and
  spreadsheet parser (`parseExcelOrCSV`);
* `src/components/id-card/bulk/BulkGeneratorPanel.tsx` — photo-matching
  effect and the record editor (`handleUpdateRecord`);
* `src/components/id-card/bulk/BulkExporter.tsx` — validator
  (`validateRecords`) and export orchestration (`handleSaveNow`).

JavaScript strings are modelled as `String`, `string | null` as
`Option String`, and JS truthiness of a nullable string (`if (s)`) as
"present and non-empty".  The external render capability (`toPng` on the
hidden card surface) is an opaque parameter `render : Nat → Option String`
giving, per record index, the produced data URL or a failure.
-/

namespace IdGenz

/-- Per-record status, `types.ts` line 9. -/
inductive RecordStatus where
  | pending
  | validated
  | generating
  | generated
  | error
  deriving DecidableEq, Repr

/-- Export phase tag, `types.ts` line 37. -/
inductive Phase where
  | validating
  | generating
  | packaging
  | complete
  deriving DecidableEq, Repr

/-- One field of a card, `types/idCard.ts` (`IDCardField`). -/
structure IDCardField where
  key : String
  label : String
  value : String
  enabled : Bool
  deriving DecidableEq, Repr

/-- One imported row, `types.ts` (`BulkRecord`). -/
structure BulkRecord where
  id : String
  rowIndex : Nat
  fields : List IDCardField
  profilePhoto : Option String
  photoMatched : Bool
  status : RecordStatus
  errorMessage : Option String := none
  generatedImage : Option String := none
  syncValidated : Bool := false
  deriving DecidableEq, Repr

/-- An uploaded photo awaiting association, `types.ts` (`PhotoMapping`). -/
structure PhotoMapping where
  studentId : String
  photoUrl : String
  fileName : String
  deriving DecidableEq, Repr

/-- Validation snapshot, `types.ts` (`ValidationResult`). -/
structure ValidationResult where
  isValid : Bool
  errors : List String
  warnings : List String
  recordsValidated : Nat
  photosMatched : Nat
  photosMissing : Nat
  deriving DecidableEq, Repr

/-- One progress report, `types.ts` (`ExportProgress`). -/
structure ExportProgress where
  current : Nat
  total : Nat
  phase : Phase
  message : String
  deriving DecidableEq, Repr

/-- JS truthiness of a `string | null` value: non-null and non-empty. -/
def optTruthy : Option String → Bool
  | some s => !(s == "")
  | none => false

/-! ## Charwise models of the JavaScript string operations

`String.trim`, `String.toLower` and `String.splitOn` from the core library
do not reduce well under kernel evaluation, so the JS operations are
modelled structurally over `List Char`. -/

/-- Strip leading and trailing whitespace from a character list. -/
def trimChars (cs : List Char) : List Char :=
  ((cs.dropWhile Char.isWhitespace).reverse.dropWhile Char.isWhitespace).reverse

/-- JS `s.trim()`. -/
def jsTrim (s : String) : String := ⟨trimChars s.data⟩

/-- JS `s.toLowerCase()` (the identifiers involved are ASCII). -/
def jsLower (s : String) : String := ⟨s.data.map Char.toLower⟩

/-- JS `s.includes(pat)`: `pat` occurs as a contiguous substring of `s`. -/
def strIncludes (s pat : String) : Bool := decide (pat.data <:+: s.data)

/-- Split a character list at every occurrence of `sep` (JS `split`). -/
def splitOnChar (sep : Char) : List Char → List (List Char)
  | [] => [[]]
  | c :: rest =>
    let r := splitOnChar sep rest
    if c == sep then [] :: r
    else
      match r with
      | [] => [[c]]
      | h :: t => (c :: h) :: t

/-- JS `text.split('\n')`. -/
def splitLines (s : String) : List String :=
  (splitOnChar (Char.ofNat 10) s.data).map fun l => String.mk l

/-- Category of card, `types/idCard.ts` (`CategoryType`). -/
inductive CategoryType where
  | school
  | college
  | corporate
  | event
  | custom
  deriving DecidableEq, Repr

/-- Default field set per category, `types/idCard.ts` (`getDefaultFields`). -/
def getDefaultFields : CategoryType → List IDCardField
  | .school =>
    [⟨"name", "Student Name", "", true⟩,
     ⟨"rollNo", "Roll No", "", true⟩,
     ⟨"class", "Class/Section", "", true⟩,
     ⟨"grNo", "GR No", "", true⟩,
     ⟨"dob", "Date of Birth", "", true⟩,
     ⟨"bloodGroup", "Blood Group", "", true⟩,
     ⟨"phone", "Phone", "", true⟩,
     ⟨"address", "Address", "", false⟩,
     ⟨"academicYear", "Academic Year", "", false⟩,
     ⟨"emergencyContact", "Emergency Contact", "", false⟩]
  | .college =>
    [⟨"name", "Student Name", "", true⟩,
     ⟨"enrollmentNo", "Enrollment No", "", true⟩,
     ⟨"department", "Department", "", true⟩,
     ⟨"course", "Course", "", true⟩,
     ⟨"dob", "Date of Birth", "", true⟩,
     ⟨"bloodGroup", "Blood Group", "", true⟩,
     ⟨"phone", "Phone", "", true⟩,
     ⟨"address", "Address", "", false⟩,
     ⟨"academicYear", "Academic Year", "", false⟩,
     ⟨"emergencyContact", "Emergency Contact", "", false⟩]
  | .corporate =>
    [⟨"name", "Employee Name", "", true⟩,
     ⟨"employeeId", "Employee ID", "", true⟩,
     ⟨"designation", "Designation", "", true⟩,
     ⟨"department", "Department", "", true⟩,
     ⟨"dob", "Date of Birth", "", true⟩,
     ⟨"bloodGroup", "Blood Group", "", true⟩,
     ⟨"phone", "Phone", "", true⟩,
     ⟨"joiningYear", "Joining Year", "", false⟩,
     ⟨"address", "Address", "", false⟩,
     ⟨"emergencyContact", "Emergency Contact", "", false⟩]
  | .event =>
    [⟨"name", "Attendee Name", "", true⟩,
     ⟨"participantId", "Participant ID", "", true⟩,
     ⟨"role", "Role", "", true⟩,
     ⟨"organization", "Organization", "", true⟩,
     ⟨"phone", "Phone", "", true⟩,
     ⟨"email", "Email", "", false⟩,
     ⟨"eventDate", "Event Date", "", false⟩]
  | .custom =>
    [⟨"name", "Full Name", "", true⟩,
     ⟨"idNumber", "ID Number", "", true⟩,
     ⟨"designation", "Designation", "", true⟩,
     ⟨"department", "Department", "", true⟩,
     ⟨"dob", "Date of Birth", "", false⟩,
     ⟨"bloodGroup", "Blood Group", "", false⟩,
     ⟨"phone", "Phone", "", false⟩,
     ⟨"address", "Address", "", false⟩]

/-! ## Validator (`BulkExporter.tsx`, `validateRecords`, lines 36–70) -/

/-- The `name` field value of a record (`fields.find(f => f.key === 'name')?.value`). -/
def nameValue (r : BulkRecord) : Option String :=
  (r.fields.find? (fun f => f.key == "name")).map (·.value)

/-- The required-field check of the validator: `!name || name.trim() === ''`. -/
def nameMissing (r : BulkRecord) : Bool :=
  match nameValue r with
  | none => true
  | some s => s == "" || jsTrim s == ""

/-- `name || 'Unknown'` as used in the missing-photo warning message. -/
def displayName (r : BulkRecord) : String :=
  match nameValue r with
  | none => "Unknown"
  | some s => if s == "" then "Unknown" else s

/-- Error string `Row ${record.rowIndex}: Missing name`. -/
def errMsg (r : BulkRecord) : String :=
  "Row " ++ toString r.rowIndex ++ ": Missing name"

/-- Warning string `Row ${record.rowIndex} (${name || 'Unknown'}): No photo attached`. -/
def warnMsg (r : BulkRecord) : String :=
  "Row " ++ toString r.rowIndex ++ " (" ++ displayName r ++ "): No photo attached"

/-- `validateRecords` (`BulkExporter.tsx` lines 36–70).  The source
accumulates errors, warnings and the two photo counters in a single
`forEach`; the four accumulators are independent of each other, so each is
modelled as a comprehension over the record list in the same order.
`isValid` is the source's `errors.length === 0`. -/
def validateRecords (records : List BulkRecord) : ValidationResult :=
  let errors := records.filterMap fun r =>
    if nameMissing r then some (errMsg r) else none
  let warnings := records.filterMap fun r =>
    if optTruthy r.profilePhoto then none else some (warnMsg r)
  { isValid := errors.isEmpty
    errors := errors
    warnings := warnings
    recordsValidated := records.length
    photosMatched := (records.filter (fun r => optTruthy r.profilePhoto)).length
    photosMissing := (records.filter (fun r => !optTruthy r.profilePhoto)).length }

/-! ## CSV tokenizer and spreadsheet parser
(`BulkDataImport.tsx`, `parseExcelOrCSV`, lines 29–142; CSV branch only,
the spreadsheet branch delegates to the external XLSX reader) -/

/-- One step of the quote-aware CSV tokenizer (`BulkDataImport.tsx` lines
44–57): state is (cells emitted so far, current cell, in-quotes flag). A
double quote toggles the flag, a comma outside quotes emits the trimmed
current cell, any other character is appended to the current cell. -/
def csvStep (st : List String × String × Bool) (c : Char) : List String × String × Bool :=
  let (values, current, inQuotes) := st
  if c == '"' then
    (values, current, !inQuotes)
  else if c == ',' && !inQuotes then
    (values ++ [jsTrim current], "", inQuotes)
  else
    (values, current.push c, inQuotes)

/-- Tokenize one CSV line (`BulkDataImport.tsx` lines 42–59): run `csvStep`
over the characters, then emit the final cell. -/
def parseCSVLine (line : String) : List String :=
  let st := line.data.foldl csvStep ([], "", false)
  st.1 ++ [jsTrim st.2.1]

/-- Header normalization (`BulkDataImport.tsx` lines 73–75):
`String(h || '').trim().toLowerCase().replace(/['"]/g, '')`. -/
def normalizeHeader (h : String) : String :=
  ⟨((jsLower (jsTrim h)).data.filter fun c => !(c == '"' || c == Char.ofNat 39))⟩

/-- `h.replace(/[\s_-]+/g, '')`: drop whitespace, underscores and hyphens. -/
def stripSeps (s : String) : String :=
  ⟨s.data.filter fun c => !(c.isWhitespace || c == '_' || c == '-')⟩

/-- Header-to-field matching (`BulkDataImport.tsx` lines 88–94): exact
case-insensitive match on key or label, or the same after stripping
whitespace/underscores/hyphens. -/
def headerMatchesField (field : IDCardField) (h : String) : Bool :=
  h == jsLower field.key ||
  h == jsLower field.label ||
  stripSeps h == jsLower field.key ||
  stripSeps h == stripSeps (jsLower field.label)

/-- Photo-reference column detection (`BulkDataImport.tsx` lines 116–118). -/
def isPhotoHeader (h : String) : Bool :=
  strIncludes h "photo" || strIncludes h "image" || strIncludes h "picture"

/-- Data-row skip rule (`BulkDataImport.tsx` line 82):
`!row || row.length === 0 || (row.length === 1 && !row[0])`. -/
def skipRow : List String → Bool
  | [] => true
  | [c] => c == ""
  | _ => false

/-- Build one `BulkRecord` from a data row (`BulkDataImport.tsx` lines
84–127).  `now` models `Date.now()` in the generated id; `i` is the 0-based
row position in the file (reported to the user as the row index).  The
source also computes a `studentId` local from an identifier column, but
that local is unused in the produced record. -/
def parseRow (defaultFields : List IDCardField) (headers : List String)
    (now i : Nat) (row : List String) : BulkRecord :=
  let values := row.map jsTrim
  let fields := defaultFields.map fun field =>
    match headers.findIdx? (headerMatchesField field) with
    | some idx => { field with value := values.getD idx "" }
    | none => { field with value := "" }
  let profilePhoto :=
    match headers.findIdx? isPhotoHeader with
    | some idx => if values.getD idx "" == "" then none else some (values.getD idx "")
    | none => none
  { id := "bulk-" ++ toString now ++ "-" ++ toString i
    rowIndex := i
    fields := fields
    profilePhoto := profilePhoto
    photoMatched := false
    status := .pending }

/-- The data-row loop of `parseExcelOrCSV` (lines 80–128): walk the rows
from position 1, skipping blank rows, keeping the original row position. -/
def parseDataRows (defaultFields : List IDCardField) (headers : List String)
    (now : Nat) : Nat → List (List String) → List BulkRecord
  | _, [] => []
  | i, row :: rest =>
    if skipRow row then parseDataRows defaultFields headers now (i + 1) rest
    else parseRow defaultFields headers now i row ::
      parseDataRows defaultFields headers now (i + 1) rest

/-- The CSV path of `parseExcelOrCSV` (`BulkDataImport.tsx` lines 38–130):
trim the text, split into lines, tokenize each line, require a header row
plus at least one data row, normalize headers, then build records. -/
def parseCSVText (category : CategoryType) (now : Nat) (text : String) :
    Except String (List BulkRecord) :=
  let rows := (splitLines (jsTrim text)).map parseCSVLine
  if rows.length < 2 then
    .error "File must have a header row and at least one data row"
  else
    let headers := (rows.headD []).map normalizeHeader
    .ok (parseDataRows (getDefaultFields category) headers now 1 rows.tail)

/-! ## Photo matcher (`BulkGeneratorPanel.tsx`, matching effect, lines 49–93) -/

/-- The record's identifier field (`BulkGeneratorPanel.tsx` lines 54–59):
first field whose key is one of the four identifier keys. -/
def studentIdField (r : BulkRecord) : Option IDCardField :=
  r.fields.find? fun f =>
    f.key == "rollNo" || f.key == "enrollmentNo" ||
    f.key == "employeeId" || f.key == "participantId"

/-- The matching test of the effect (`BulkGeneratorPanel.tsx` lines 64–68):
case-insensitive equality or containment in either direction. -/
def jsPhotoMatch (idValue : String) (p : PhotoMapping) : Bool :=
  jsLower p.studentId == jsLower idValue ||
  strIncludes (jsLower p.studentId) (jsLower idValue) ||
  strIncludes (jsLower idValue) (jsLower p.studentId)

/-- Per-record body of the matching effect (`BulkGeneratorPanel.tsx` lines
52–79): records with no identifier value are left alone; otherwise the
first matching photo is assigned when the record has no photo yet. -/
def matchRecord (photos : List PhotoMapping) (r : BulkRecord) : BulkRecord :=
  match studentIdField r with
  | none => r
  | some f =>
    if f.value == "" then r
    else
      match photos.find? (jsPhotoMatch f.value) with
      | some p =>
        if !optTruthy r.profilePhoto then
          { r with profilePhoto := some p.photoUrl, photoMatched := true }
        else r
      | none => r

/-- The whole matching effect: it returns early when either list is empty,
otherwise maps `matchRecord` over the records (the effect additionally
skips the state update when nothing changed, which does not alter the
resulting record list). -/
def matchPhotos (photos : List PhotoMapping) (records : List BulkRecord) :
    List BulkRecord :=
  if photos.isEmpty || records.isEmpty then records
  else records.map (matchRecord photos)

/-! ## Record editor (`BulkGeneratorPanel.tsx`, `handleUpdateRecord`,
lines 132–143) -/

/-- Update one record's fields and optionally its photo; the status is
forced back to `pending`.  `profilePhoto? = none` models the `undefined`
argument (keep the old photo); `some v` models an explicit
`string | null`. -/
def handleUpdateRecord (records : List BulkRecord) (recordId : String)
    (fields : List IDCardField) (profilePhoto? : Option (Option String)) :
    List BulkRecord :=
  records.map fun r =>
    if r.id == recordId then
      { r with
        fields := fields
        profilePhoto := profilePhoto?.getD r.profilePhoto
        status := .pending }
    else r

/-! ## Batch exporter (`BulkExporter.tsx`, `handleSaveNow`, lines 96–226)

The external render capability (the settling wait plus `toPng` on the
hidden card surface, lines 73–93 and 137–140) is an opaque parameter
`render : Nat → Option String`: for the record at index `i` it yields
`some dataUrl` on success and `none` on failure. -/

/-- An element of the `generatedImages` array (`BulkExporter.tsx` line
126): sanitized name, sanitized identifier, rendered data URL. -/
structure GenImage where
  name : String
  studentId : String
  dataUrl : String
  deriving DecidableEq, Repr

/-- One entry of the produced ZIP archive (`BulkExporter.tsx` lines 195–203). -/
structure ZipEntry where
  fileName : String
  dataUrl : String
  deriving DecidableEq, Repr

/-- `name.replace(/[^a-zA-Z0-9\s]/g, '').trim()` (`BulkExporter.tsx` line 149). -/
def sanitizeName (s : String) : String :=
  jsTrim ⟨s.data.filter fun c => c.isAlpha || c.isDigit || c.isWhitespace⟩

/-- `studentId.replace(/[^a-zA-Z0-9]/g, '')` (`BulkExporter.tsx` line 150). -/
def sanitizeId (s : String) : String :=
  ⟨s.data.filter fun c => c.isAlpha || c.isDigit⟩

/-- `fields.find(f => f.key === 'name')?.value || 'Unknown'`
(`BulkExporter.tsx` line 142). -/
def exportName (r : BulkRecord) : String :=
  match nameValue r with
  | none => "Unknown"
  | some s => if s == "" then "Unknown" else s

/-- The export identifier (`BulkExporter.tsx` lines 143–145): first
identifier field's value, falling back to `ID${rowIndex}` when absent or
empty. -/
def exportStudentId (r : BulkRecord) : String :=
  match studentIdField r with
  | none => "ID" ++ toString r.rowIndex
  | some f => if f.value == "" then "ID" ++ toString r.rowIndex else f.value

/-- Everything one iteration of the generation loop (`BulkExporter.tsx`
lines 128–177) produces for the record at index `i`. -/
structure StepResult where
  newRecord : BulkRecord
  image : Option GenImage
  transitions : List (RecordStatus × RecordStatus)
  progress : ExportProgress
  renderIndex : Nat
  deriving DecidableEq, Repr

/-- One iteration of the generation loop.  The record is first marked
`generating` (first transition, from whatever status it had), then the
render outcome decides `generated` (storing the image and pushing a
sanitized `generatedImages` entry built from the original record's fields)
or `error` with the fixed message; a progress report with `current = i + 1`
closes the iteration. -/
def processRecord (render : Nat → Option String) (total i : Nat)
    (record : BulkRecord) : StepResult :=
  let prog : ExportProgress :=
    { current := i + 1
      total := total
      phase := .generating
      message := "Generated " ++ toString (i + 1) ++ " of " ++ toString total ++ " cards..." }
  match render i with
  | some dataUrl =>
    { newRecord :=
        { record with status := .generated, generatedImage := some dataUrl, syncValidated := true }
      image := some
        { name := sanitizeName (exportName record)
          studentId := sanitizeId (exportStudentId record)
          dataUrl := dataUrl }
      transitions := [(record.status, .generating), (.generating, .generated)]
      progress := prog
      renderIndex := i }
  | none =>
    { newRecord := { record with status := .error, errorMessage := some "Generation failed" }
      image := none
      transitions := [(record.status, .generating), (.generating, .error)]
      progress := prog
      renderIndex := i }

/-- The generation loop over the records, carrying the running index.  Each
iteration only reads the original record at its own index and writes only
that index of `updatedRecords`, so the loop is a per-element traversal. -/
def genResults (render : Nat → Option String) (total : Nat) :
    Nat → List BulkRecord → List StepResult
  | _, [] => []
  | i, r :: rest =>
    processRecord render total i r :: genResults render total (i + 1) rest

/-- Whether the record at index `i` ended the loop with status `generated`
(`updatedRecords[i].status === 'generated'`, `BulkExporter.tsx` line 184). -/
def statusGeneratedAt (rs : List BulkRecord) (i : Nat) : Bool :=
  match rs[i]? with
  | some r => r.status == .generated
  | none => false

/-- `generatedImages.filter((_, i) => updatedRecords[i].status === 'generated')`
(`BulkExporter.tsx` line 184): filter the compacted image list by the
status of the record at the same *positional* index. -/
def successFilter (finalRecords : List BulkRecord) :
    Nat → List GenImage → List GenImage
  | _, [] => []
  | i, img :: rest =>
    if statusGeneratedAt finalRecords i then
      img :: successFilter finalRecords (i + 1) rest
    else successFilter finalRecords (i + 1) rest

/-- Archive entry name `${card.name}_${card.studentId}.png`
(`BulkExporter.tsx` line 201). -/
def zipEntryOf (c : GenImage) : ZipEntry :=
  { fileName := c.name ++ "_" ++ c.studentId ++ ".png", dataUrl := c.dataUrl }

/-- Observable outcome of one `handleSaveNow` run: every progress report in
order, the final record list, every status write as a (from, to) pair, the
indices at which the render capability was invoked, the archive offered for
download (`none` when no download happens), and whether an error toast was
raised. -/
structure RunResult where
  progress : List ExportProgress
  finalRecords : List BulkRecord
  transitions : List (RecordStatus × RecordStatus)
  renders : List Nat
  archive : Option (List ZipEntry)
  errorReported : Bool
  deriving Repr

/-- Progress report opening the validation phase (`BulkExporter.tsx` line 103). -/
def progressValidating (total : Nat) : ExportProgress :=
  { current := 0, total := total, phase := .validating, message := "Validating data..." }

/-- Progress report opening the generation phase (`BulkExporter.tsx` line 123). -/
def progressGenStart (total : Nat) : ExportProgress :=
  { current := 0, total := total, phase := .generating, message := "Generating ID cards..." }

/-- Progress report opening the packaging phase (`BulkExporter.tsx` line 182). -/
def progressPackaging : ExportProgress :=
  { current := 0, total := 1, phase := .packaging, message := "Creating ZIP file..." }

/-- Final progress report (`BulkExporter.tsx` line 217). -/
def progressComplete : ExportProgress :=
  { current := 1, total := 1, phase := .complete, message := "Export complete!" }

/-- The step results of the generation loop for a whole run. -/
def exportSteps (records : List BulkRecord) (render : Nat → Option String) :
    List StepResult :=
  genResults render records.length 0 records

/-- The record list as it stands after the generation loop
(`updatedRecords` at `BulkExporter.tsx` line 184). -/
def exportFinalRecords (records : List BulkRecord) (render : Nat → Option String) :
    List BulkRecord :=
  (exportSteps records render).map (·.newRecord)

/-- `successfulCards` (`BulkExporter.tsx` line 184). -/
def successfulCards (records : List BulkRecord) (render : Nat → Option String) :
    List GenImage :=
  successFilter (exportFinalRecords records render) 0
    ((exportSteps records render).filterMap (·.image))

/-- The post-validation part of `handleSaveNow` (lines 122–225): run the
generation loop, then package.  Packaging pushes its progress report before
checking for successes; zero `successfulCards` raises an error and offers
no download, otherwise the archive is built and the complete report is
pushed. -/
def exportRun (records : List BulkRecord) (render : Nat → Option String) : RunResult :=
  { progress :=
      progressValidating records.length :: progressGenStart records.length ::
        (exportSteps records render).map (·.progress) ++
        (if (successfulCards records render).isEmpty then [progressPackaging]
         else [progressPackaging, progressComplete])
    finalRecords := exportFinalRecords records render
    transitions := (exportSteps records render).flatMap (·.transitions)
    renders := (exportSteps records render).map (·.renderIndex)
    archive :=
      if (successfulCards records render).isEmpty then none
      else some ((successfulCards records render).map zipEntryOf)
    errorReported := (successfulCards records render).isEmpty }

/-- `handleSaveNow` (`BulkExporter.tsx` lines 96–226).  An empty record
list is rejected before any progress report; a failed validation stops the
run after the validating report with no status write, no render and no
archive; otherwise the run proceeds to generation and packaging. -/
def handleSaveNow (records : List BulkRecord) (render : Nat → Option String) : RunResult :=
  if records.isEmpty then
    { progress := []
      finalRecords := records
      transitions := []
      renders := []
      archive := none
      errorReported := true }
  else if !(validateRecords records).isValid then
    { progress := [progressValidating records.length]
      finalRecords := records
      transitions := []
      renders := []
      archive := none
      errorReported := true }
  else
    exportRun records render

/-! ## Concrete fixtures used by witnesses and counterexamples -/

/-- A record with a valid name and identifier `S001` and no photo. -/
def recAsha : BulkRecord :=
  { id := "a"
    rowIndex := 1
    fields := [⟨"name", "Student Name", "Asha", true⟩, ⟨"rollNo", "Roll No", "S001", true⟩]
    profilePhoto := none
    photoMatched := false
    status := .pending }

/-- A second record with a valid name and identifier `R101` and no photo. -/
def recBen : BulkRecord :=
  { id := "b"
    rowIndex := 2
    fields := [⟨"name", "Student Name", "Ben", true⟩, ⟨"rollNo", "Roll No", "R101", true⟩]
    profilePhoto := none
    photoMatched := false
    status := .pending }

/-- A record whose `name` field is blank (whitespace only). -/
def recBlankName : BulkRecord :=
  { id := "c"
    rowIndex := 3
    fields := [⟨"name", "Student Name", "  ", true⟩]
    profilePhoto := none
    photoMatched := false
    status := .pending }

/-- A record carrying a manually assigned photo. -/
def recManualPhoto : BulkRecord :=
  { recBen with id := "d", profilePhoto := some "manual.png" }

/-- `recAsha` after a successful earlier generation run. -/
def recGeneratedAsha : BulkRecord :=
  { recAsha with status := .generated, generatedImage := some "old.png" }

/-- A render capability that succeeds on every record. -/
def renderAllOk : Nat → Option String := fun _ => some "U"

/-- A render capability that fails on every record. -/
def renderAllFail : Nat → Option String := fun _ => none

/-- A render capability failing on the first record, succeeding afterwards. -/
def renderFailThenOk : Nat → Option String := fun i => if i == 0 then none else some "IMG"

/-- An uploaded photo whose filename-derived identifier is `S001_front`. -/
def photoS001Front : PhotoMapping :=
  { studentId := "S001_front", photoUrl := "url1", fileName := "S001_front.jpg" }

/-! ## Predicates used in the theorem statements -/

/-- Two consecutive progress reports of the same phase have a
non-decreasing `current` counter. -/
def samePhaseLe (p q : ExportProgress) : Prop :=
  p.phase = q.phase → p.current ≤ q.current

/-- The spec's matching relation: the two identifiers, compared
case-insensitively, match when either string contains the other
(bidirectional substring match, equality included). -/
def bidirectionalMatch (a b : String) : Prop :=
  (jsLower a).data <:+: (jsLower b).data ∨ (jsLower b).data <:+: (jsLower a).data

/-- The records parsed from a small CSV whose second column is a
photo-reference column. -/
def parsedDemo : List BulkRecord :=
  (parseCSVText .school 0 "name,photo\nJohn,pic.jpg").toOption.getD []

/-! # Helper lemmas -/

/-- A record with a missing or blank name contributes an error, so
validation fails. -/
lemma isValid_false_of_missing {records : List BulkRecord} {r : BulkRecord}
    (hr : r ∈ records) (hm : nameMissing r = true) :
    (validateRecords records).isValid = false := by
  have hmem : errMsg r ∈ (validateRecords records).errors :=
    List.mem_filterMap.mpr ⟨r, hr, by simp [hm]⟩
  exact List.isEmpty_eq_false.mpr (List.ne_nil_of_mem hmem)

/-- A loop step whose record does not end `generated` produced no image. -/
lemma processRecord_image_none {render : Nat → Option String} {total i : Nat}
    {r : BulkRecord} (h : (processRecord render total i r).newRecord.status ≠ .generated) :
    (processRecord render total i r).image = none := by
  cases hri : render i with
  | some u => exact absurd (by simp [processRecord, hri]) h
  | none => simp [processRecord, hri]

/-- If no record ends the loop `generated`, the loop collected no images. -/
lemma genResults_images_nil (render : Nat → Option String) (total : Nat) :
    ∀ (rs : List BulkRecord) (i : Nat),
      (∀ s ∈ genResults render total i rs, s.newRecord.status ≠ .generated) →
      (genResults render total i rs).filterMap (·.image) = []
  | [], _, _ => rfl
  | r :: rest, i, h => by
    have h1 : (processRecord render total i r).image = none :=
      processRecord_image_none (h _ (by simp [genResults]))
    simp only [genResults, List.filterMap_cons, h1]
    exact genResults_images_nil render total rest (i + 1)
      (fun s hs => h s (by simp [genResults]; right; exact hs))

/-- Every status write of the generation loop either targets `generating`
or moves a `generating` record to `generated` or `error`. -/
lemma genResults_transitions_shape (render : Nat → Option String) (total : Nat) :
    ∀ (rs : List BulkRecord) (i : Nat) (t : RecordStatus × RecordStatus),
      t ∈ (genResults render total i rs).flatMap (·.transitions) →
      t.2 = .generating ∨ (t.1 = .generating ∧ (t.2 = .generated ∨ t.2 = .error))
  | [], _, t, ht => by simp [genResults] at ht
  | r :: rest, i, t, ht => by
    simp only [genResults, List.flatMap_cons, List.mem_append] at ht
    rcases ht with ht | ht
    · cases hri : render i with
      | some u =>
        have htr : (processRecord render total i r).transitions =
            [(r.status, .generating), (.generating, .generated)] := by
          simp [processRecord, hri]
        rw [htr] at ht
        rcases List.mem_cons.mp ht with rfl | ht2
        · exact Or.inl rfl
        · rw [List.mem_singleton] at ht2
          subst ht2
          exact Or.inr ⟨rfl, Or.inl rfl⟩
      | none =>
        have htr : (processRecord render total i r).transitions =
            [(r.status, .generating), (.generating, .error)] := by
          simp [processRecord, hri]
        rw [htr] at ht
        rcases List.mem_cons.mp ht with rfl | ht2
        · exact Or.inl rfl
        · rw [List.mem_singleton] at ht2
          subst ht2
          exact Or.inr ⟨rfl, Or.inr rfl⟩
    · exact genResults_transitions_shape render total rest (i + 1) t ht

/-- The progress report of loop step `i` carries counter `i + 1` in the
generating phase, whatever the render outcome. -/
lemma processRecord_progress (render : Nat → Option String) (total i : Nat)
    (r : BulkRecord) :
    (processRecord render total i r).progress.current = i + 1 ∧
    (processRecord render total i r).progress.phase = .generating := by
  cases hri : render i <;> simp [processRecord, hri]

/-- The generating-phase reports form a phase-local monotone chain and can
be closed by any suffix that starts outside the generating phase. -/
lemma chain_gen (render : Nat → Option String) (total : Nat)
    (suffix : List ExportProgress)
    (hs : List.Chain' samePhaseLe suffix)
    (hh : ∀ q, suffix.head? = some q → q.phase ≠ Phase.generating) :
    ∀ (rs : List BulkRecord) (i : Nat) (p : ExportProgress),
      p.phase = Phase.generating → p.current ≤ i →
      List.Chain' samePhaseLe (p :: ((genResults render total i rs).map (·.progress) ++ suffix))
  | [], i, p, hp, _ => by
    simp only [genResults, List.map_nil, List.nil_append]
    cases hsuf : suffix with
    | nil => exact List.chain'_singleton p
    | cons q tail =>
      refine List.chain'_cons.mpr ⟨fun hpq => ?_, hsuf ▸ hs⟩
      exact absurd (hpq.symm.trans hp) (hh q (by rw [hsuf]; rfl))
  | r :: rest, i, p, hp, hpc => by
    have hpr := processRecord_progress render total i r
    simp only [genResults, List.map_cons, List.cons_append]
    refine List.chain'_cons.mpr ⟨fun _ => ?_, ?_⟩
    · rw [hpr.1]
      exact hpc.trans (Nat.le_succ i)
    · exact chain_gen render total suffix hs hh rest (i + 1) _ hpr.2 (le_of_eq hpr.1)

/-- The code's find-predicate agrees with the spec's bidirectional
case-insensitive substring relation (the equality disjunct is subsumed by
containment). -/
lemma jsPhotoMatch_iff (v : String) (p : PhotoMapping) :
    jsPhotoMatch v p = true ↔ bidirectionalMatch v p.studentId := by
  constructor
  · intro h
    rcases (by simpa [jsPhotoMatch, Bool.or_eq_true, strIncludes,
        decide_eq_true_iff, beq_iff_eq] using h :
        (jsLower p.studentId = jsLower v ∨
          (jsLower v).data <:+: (jsLower p.studentId).data) ∨
        (jsLower p.studentId).data <:+: (jsLower v).data) with (h1 | h2) | h3
    · left
      rw [h1]
    · exact Or.inl h2
    · exact Or.inr h3
  · intro h
    simp only [jsPhotoMatch, Bool.or_eq_true, strIncludes, decide_eq_true_iff]
    rcases h with h | h
    · exact Or.inl (Or.inr h)
    · exact Or.inr h

/-- Every record emitted by the data-row loop starts `pending` with
`photoMatched = false`. -/
lemma parseDataRows_flags (dfs : List IDCardField) (hs : List String) (now : Nat) :
    ∀ (i : Nat) (rows : List (List String)) (r : BulkRecord),
      r ∈ parseDataRows dfs hs now i rows →
      r.status = .pending ∧ r.photoMatched = false
  | _, [], r, hr => by simp [parseDataRows] at hr
  | i, row :: rest, r, hr => by
    rw [parseDataRows] at hr
    by_cases hskip : skipRow row
    · rw [if_pos hskip] at hr
      exact parseDataRows_flags dfs hs now (i + 1) rest r hr
    · rw [if_neg hskip] at hr
      rcases List.mem_cons.mp hr with rfl | hr2
      · exact ⟨rfl, rfl⟩
      · exact parseDataRows_flags dfs hs now (i + 1) rest r hr2

/-- On values that are not the empty string, JS truthiness of a nullable
string coincides with non-nullness. -/
lemma optTruthy_eq_isSome {x : Option String} (h : x ≠ some "") :
    optTruthy x = x.isSome := by
  cases x with
  | none => rfl
  | some s =>
    have hs : s ≠ "" := fun he => h (by rw [he])
    simp [optTruthy, hs]

/-- A list splits into the elements satisfying a predicate and the rest. -/
lemma length_filter_add_length_filter_not {α : Type} (l : List α) (p : α → Bool) :
    (l.filter p).length + (l.filter (fun a => !p a)).length = l.length := by
  induction l with
  | nil => rfl
  | cons a t ih =>
    cases hpa : p a <;> simp [List.filter_cons, hpa] <;> omega

/-- The validator emits exactly one warning per record without a photo. -/
lemma length_filterMap_warnings (l : List BulkRecord) :
    (l.filterMap (fun r => if optTruthy r.profilePhoto then none else some (warnMsg r))).length =
      (l.filter (fun r => !optTruthy r.profilePhoto)).length := by
  induction l with
  | nil => rfl
  | cons a t ih =>
    cases hpa : optTruthy a.profilePhoto <;>
      simp [List.filterMap_cons, List.filter_cons, hpa, ih]

/-! # Claims -/

/-- Claim C1 — refuted by the code (packaging index misalignment).  With
two records whose render outcomes are [failure, success], exactly one
record ends the generating phase with status `generated`, yet the export
produces no archive and reports an error: `successfulCards` filters the
compacted `generatedImages` list (successes only) by *record* index, so
the successful second record's image is tested against the failed first
record's status and dropped.  The claim requires the archive to contain
exactly the one successful record's image regardless of which records
failed. -/
theorem c1_packaging_drops_successful_render :
    ((handleSaveNow [recAsha, recBen] renderFailThenOk).finalRecords.filter
        (fun r => r.status == .generated)).length = 1 ∧
    (handleSaveNow [recAsha, recBen] renderFailThenOk).archive = none ∧
    (handleSaveNow [recAsha, recBen] renderFailThenOk).errorReported = true := by
  refine ⟨by decide, by decide, by decide⟩

/-- Claim C8: the CSV tokenizer splits on commas only when outside double
quotes — in the in-quotes state a comma is appended to the current cell and
produces no cell boundary, while outside quotes a comma emits the current
cell; in particular the row `"Doe, John",S001` parses to exactly the two
cells `Doe, John` and `S001`. -/
theorem c8_csv_quote_aware_split :
    (∀ values current, csvStep (values, current, true) ',' =
      (values, current.push ',', true)) ∧
    (∀ values current, csvStep (values, current, false) ',' =
      (values ++ [jsTrim current], "", false)) ∧
    parseCSVLine "\"Doe, John\",S001" = ["Doe, John", "S001"] := by
  refine ⟨fun values current => rfl, fun values current => rfl, by decide⟩

/-- Claim C4 — counterexample.  Running the exporter on a record whose
status is already `generated` (a re-export after a successful run, with no
intervening edit) applies the transition `generated → generating`: records
leave `generated` without an edit-triggered reset, and enter `generating`
from a status other than `validated` (no operation ever assigns
`validated`). -/
theorem c4_reexport_leaves_generated_without_edit :
    (handleSaveNow [recGeneratedAsha] renderAllOk).transitions =
      [(.generated, .generating), (.generating, .generated)] := by decide

/-- Claim C5 — counterexample.  Editing a record whose status is
`generated` (via `handleUpdateRecord`) sets its status to `pending` but
leaves `generatedImage` set, so the invariant "`generatedImage` is set iff
`status = generated`" is not restored by the edit. -/
theorem c5_edit_keeps_stale_generated_image :
    ((handleUpdateRecord [recGeneratedAsha] "a"
        [⟨"name", "Student Name", "Asha Edited", true⟩] none).map
      (fun r => (r.status, r.generatedImage))) = [(.pending, some "old.png")] := by decide

/-- Claim C6 — counterexample.  In a run over one record whose generation
succeeds, the sequence of `current` counters reported is `[0, 0, 1, 0, 1]`:
the counter drops from 1 back to 0 when the packaging-phase report is
pushed, so `current` is not non-decreasing across consecutive reports of
one run. -/
theorem c6_current_drops_at_packaging :
    ((handleSaveNow [recAsha] renderAllOk).progress.map (·.current)) = [0, 0, 1, 0, 1] ∧
    ¬ List.Chain' (fun a b => a ≤ b)
        ((handleSaveNow [recAsha] renderAllOk).progress.map (·.current)) := by
  have h : ((handleSaveNow [recAsha] renderAllOk).progress.map (·.current)) =
      [0, 0, 1, 0, 1] := by decide
  refine ⟨h, ?_⟩
  rw [h]
  intro hc
  exact absurd (List.chain'_cons.mp (List.chain'_cons.mp (List.chain'_cons.mp hc).2).2).1
    (by decide)

/-- Claim C9 — counterexample.  Parsing a CSV whose row seeds
`profilePhoto` from a detected photo-reference column still produces
`photoMatched = false`: the parser sets `photoMatched` to `false`
unconditionally (the flag is reserved for the automatic photo matcher), so
the claim's "photoMatched is true when the row seeds profilePhoto from a
detected photo-reference column" fails. -/
theorem c9_inline_photo_not_flagged_matched :
    ((parseCSVText .school 0 "name,photo\nJohn,pic.jpg").toOption.getD []).map
      (fun r => (r.profilePhoto, r.photoMatched)) = [(some "pic.jpg", false)] := by decide

/-- Claim C2: a record list containing a record whose name field is absent
or blank fails validation (`isValid = false`), and the export halts before
the generating phase — no status write occurs, the render capability is
never invoked, the records are untouched, and no generating-phase progress
report is emitted. -/
theorem c2_blank_name_halts_export (records : List BulkRecord)
    (render : Nat → Option String) (r : BulkRecord)
    (hr : r ∈ records) (hm : nameMissing r = true) :
    (validateRecords records).isValid = false ∧
    (handleSaveNow records render).transitions = [] ∧
    (handleSaveNow records render).renders = [] ∧
    (handleSaveNow records render).finalRecords = records ∧
    ∀ p ∈ (handleSaveNow records render).progress, p.phase ≠ .generating := by
  have hval := isValid_false_of_missing hr hm
  have hempty : records.isEmpty = false :=
    List.isEmpty_eq_false.mpr (List.ne_nil_of_mem hr)
  have hrun : handleSaveNow records render =
      { progress := [progressValidating records.length]
        finalRecords := records
        transitions := []
        renders := []
        archive := none
        errorReported := true } := by
    simp [handleSaveNow, hempty, hval]
  refine ⟨hval, by rw [hrun], by rw [hrun], by rw [hrun], ?_⟩
  rw [hrun]
  intro p hp
  simp at hp
  subst hp
  simp [progressValidating]

/-- Witness for claim C2, at a one-record list with a whitespace name. -/
theorem c2_blank_name_halts_export_witness :
    (validateRecords [recBlankName]).isValid = false ∧
    (handleSaveNow [recBlankName] renderAllOk).transitions = [] ∧
    (handleSaveNow [recBlankName] renderAllOk).renders = [] ∧
    (handleSaveNow [recBlankName] renderAllOk).finalRecords = [recBlankName] ∧
    ∀ p ∈ (handleSaveNow [recBlankName] renderAllOk).progress, p.phase ≠ .generating :=
  c2_blank_name_halts_export [recBlankName] renderAllOk recBlankName (by decide) (by decide)

/-- Claim C3: in a run that reaches the generating phase (non-empty
records, passing validation) in which no record ends with status
`generated`, the exporter reports an error and offers no archive; moreover
an archive, when produced at all, is never empty. -/
theorem c3_zero_success_no_archive :
    (∀ (records : List BulkRecord) (render : Nat → Option String),
      records ≠ [] →
      (validateRecords records).isValid = true →
      (∀ r ∈ (handleSaveNow records render).finalRecords, r.status ≠ .generated) →
      (handleSaveNow records render).archive = none ∧
      (handleSaveNow records render).errorReported = true) ∧
    (∀ (records : List BulkRecord) (render : Nat → Option String)
        (entries : List ZipEntry),
      (handleSaveNow records render).archive = some entries → entries ≠ []) := by
  constructor
  · intro records render hne hval hgen
    have hempty : records.isEmpty = false := List.isEmpty_eq_false.mpr hne
    have hrun : handleSaveNow records render = exportRun records render := by
      simp [handleSaveNow, hempty, hval]
    rw [hrun] at hgen ⊢
    have hsteps : ∀ s ∈ exportSteps records render, s.newRecord.status ≠ .generated :=
      fun s hs => hgen s.newRecord (List.mem_map_of_mem _ hs)
    have himg : (exportSteps records render).filterMap (·.image) = [] :=
      genResults_images_nil render records.length records 0 hsteps
    have hsc : successfulCards records render = [] := by
      unfold successfulCards
      rw [himg]
      rfl
    constructor
    · show (if (successfulCards records render).isEmpty then none
        else some ((successfulCards records render).map zipEntryOf)) = none
      rw [hsc]
      rfl
    · show (successfulCards records render).isEmpty = true
      rw [hsc]
      rfl
  · intro records render entries h
    by_cases hempty : records.isEmpty
    · simp [handleSaveNow, hempty] at h
    · by_cases hval : (validateRecords records).isValid
      · have hrun : handleSaveNow records render = exportRun records render := by
          simp [handleSaveNow, hempty, hval]
        rw [hrun] at h
        by_cases hsc : (successfulCards records render).isEmpty
        · simp [exportRun, hsc] at h
        · have harch : (exportRun records render).archive =
              some ((successfulCards records render).map zipEntryOf) := by
            simp [exportRun, hsc]
          rw [harch] at h
          rw [(Option.some.inj h).symm]
          intro hnil
          rw [List.map_eq_nil_iff] at hnil
          exact hsc (by rw [hnil]; rfl)
      · simp [handleSaveNow, hempty, hval] at h

/-- Witness for claim C3, at a one-record run whose render fails. -/
theorem c3_zero_success_no_archive_witness :
    (handleSaveNow [recAsha] renderAllFail).archive = none ∧
    (handleSaveNow [recAsha] renderAllFail).errorReported = true :=
  c3_zero_success_no_archive.1 [recAsha] renderAllFail (by decide) (by decide) (by decide)

/-- Claim C4 as amended: records never enter `validated`; every status
write of any operation either targets `generating` (the exporter applies
it from whatever status the record currently has, including directly from
`generated` or `error` on a re-export with no intervening edit) or moves a
`generating` record to `generated` or `error`; the editor's only status
write resets the edited record to `pending`. -/
theorem c4_status_transition_shape :
    (∀ (records : List BulkRecord) (render : Nat → Option String)
        (t : RecordStatus × RecordStatus),
      t ∈ (handleSaveNow records render).transitions →
      t.2 = .generating ∨ (t.1 = .generating ∧ (t.2 = .generated ∨ t.2 = .error))) ∧
    (∀ (records : List BulkRecord) (recordId : String)
        (fields : List IDCardField) (photo? : Option (Option String))
        (r : BulkRecord),
      r ∈ handleUpdateRecord records recordId fields photo? →
      r.status = .pending ∨ r ∈ records) := by
  constructor
  · intro records render t ht
    by_cases hempty : records.isEmpty
    · simp [handleSaveNow, hempty] at ht
    · by_cases hval : (validateRecords records).isValid
      · have hrun : handleSaveNow records render = exportRun records render := by
          simp [handleSaveNow, hempty, hval]
        rw [hrun] at ht
        exact genResults_transitions_shape render records.length records 0 t ht
      · simp [handleSaveNow, hempty, hval] at ht
  · intro records recordId fields photo? r hr
    unfold handleUpdateRecord at hr
    rcases List.mem_map.mp hr with ⟨a, ha, rfl⟩
    by_cases hid : a.id == recordId
    · left
      simp [hid]
    · right
      simpa [hid] using ha

/-- Witness for claim C4, at the first transition of a one-record run. -/
theorem c4_status_transition_shape_witness :
    ((RecordStatus.pending, RecordStatus.generating)).2 = .generating ∨
    (((RecordStatus.pending, RecordStatus.generating)).1 = .generating ∧
      (((RecordStatus.pending, RecordStatus.generating)).2 = .generated ∨
        ((RecordStatus.pending, RecordStatus.generating)).2 = .error)) :=
  c4_status_transition_shape.1 [recAsha] renderAllOk (.pending, .generating) (by decide)

/-- Claim C5 as amended: updating a record via the editor sets its status
to `pending` and replaces its fields (and its photo when one is provided),
but retains `generatedImage` and `errorMessage` unchanged — the record
invariant over those two fields is not restored by the edit; records with
other ids are untouched, and identity is preserved. -/
theorem c5_edit_resets_status_retains_images (records : List BulkRecord)
    (recordId : String) (fields : List IDCardField)
    (photo? : Option (Option String)) (i : Nat) (r : BulkRecord)
    (h : records[i]? = some r) :
    ∃ r', (handleUpdateRecord records recordId fields photo?)[i]? = some r' ∧
      r'.id = r.id ∧
      r'.generatedImage = r.generatedImage ∧
      r'.errorMessage = r.errorMessage ∧
      (r.id = recordId →
        r'.status = .pending ∧ r'.fields = fields ∧
        r'.profilePhoto = photo?.getD r.profilePhoto) ∧
      (r.id ≠ recordId → r' = r) := by
  unfold handleUpdateRecord
  rw [List.getElem?_map, h, Option.map_some']
  by_cases hid : r.id == recordId
  · refine ⟨_, rfl, ?_, ?_, ?_, fun _ => ?_, fun hne => absurd (beq_iff_eq.mp hid) hne⟩
    · simp [hid]
    · simp [hid]
    · simp [hid]
    · simp [hid]
  · refine ⟨_, rfl, ?_, ?_, ?_, fun heq => absurd heq (by simpa using hid), fun _ => ?_⟩
    · simp [hid]
    · simp [hid]
    · simp [hid]
    · simp [hid]

/-- Witness for claim C5, editing a generated record. -/
theorem c5_edit_resets_status_retains_images_witness :
    ∃ r', (handleUpdateRecord [recGeneratedAsha] "a"
        [⟨"name", "Student Name", "Asha Edited", true⟩] none)[0]? = some r' ∧
      r'.id = recGeneratedAsha.id ∧
      r'.generatedImage = recGeneratedAsha.generatedImage ∧
      r'.errorMessage = recGeneratedAsha.errorMessage ∧
      (recGeneratedAsha.id = "a" →
        r'.status = .pending ∧
        r'.fields = [⟨"name", "Student Name", "Asha Edited", true⟩] ∧
        r'.profilePhoto = (none : Option (Option String)).getD recGeneratedAsha.profilePhoto) ∧
      (recGeneratedAsha.id ≠ "a" → r' = recGeneratedAsha) :=
  c5_edit_resets_status_retains_images [recGeneratedAsha] "a"
    [⟨"name", "Student Name", "Asha Edited", true⟩] none 0 recGeneratedAsha (by decide)

/-- Claim C6 as amended: within one export run the `current` counter never
decreases between two consecutive progress reports of the same phase; the
counter restarts at 0 when the packaging phase begins (packaging and
complete use a fresh 0-of-1 scale). -/
theorem c6_monotonic_within_phase :
    ∀ (records : List BulkRecord) (render : Nat → Option String),
      List.Chain' samePhaseLe (handleSaveNow records render).progress := by
  intro records render
  by_cases hempty : records.isEmpty
  · simp [handleSaveNow, hempty]
  · by_cases hval : (validateRecords records).isValid
    · have hrun : handleSaveNow records render = exportRun records render := by
        simp [handleSaveNow, hempty, hval]
      rw [hrun]
      show List.Chain' samePhaseLe
        (progressValidating records.length :: progressGenStart records.length ::
          (exportSteps records render).map (·.progress) ++
          (if (successfulCards records render).isEmpty then [progressPackaging]
           else [progressPackaging, progressComplete]))
      have hsufChain : List.Chain' samePhaseLe
          (if (successfulCards records render).isEmpty then [progressPackaging]
           else [progressPackaging, progressComplete]) := by
        by_cases hsc : (successfulCards records render).isEmpty
        · rw [if_pos hsc]
          exact List.chain'_singleton _
        · rw [if_neg hsc]
          refine List.chain'_cons.mpr ⟨fun hpq => ?_, List.chain'_singleton _⟩
          simp [progressPackaging, progressComplete] at hpq
      have hsufHead : ∀ q,
          (if (successfulCards records render).isEmpty then [progressPackaging]
           else [progressPackaging, progressComplete]).head? = some q →
          q.phase ≠ Phase.generating := by
        intro q hq
        by_cases hsc : (successfulCards records render).isEmpty
        · rw [if_pos hsc] at hq
          cases hq
          simp [progressPackaging]
        · rw [if_neg hsc] at hq
          cases hq
          simp [progressPackaging]
      refine List.chain'_cons.mpr ⟨fun hpq => ?_, ?_⟩
      · simp [progressValidating, progressGenStart] at hpq
      · exact chain_gen render records.length _ hsufChain hsufHead records 0
          (progressGenStart records.length) rfl (Nat.le_refl 0)
    · simp [handleSaveNow, hempty, hval, List.chain'_singleton]

/-- Claim C7: for a record with no photo and a non-empty identifier value,
the matcher assigns a photo exactly when some uploaded photo's identifier
matches the record's identifier case-insensitively with either string
containing the other; on assignment `photoMatched` becomes true and the
stored photo is a matching mapping's image reference; with no match the
record is unchanged.  A record that already has a photo is never changed
by the matcher. -/
theorem c7_bidirectional_nondestructive_matching :
    (∀ (photos : List PhotoMapping) (r : BulkRecord) (f : IDCardField),
      studentIdField r = some f → f.value ≠ "" → r.profilePhoto = none →
      (((matchRecord photos r).profilePhoto.isSome = true) ↔
        ∃ p ∈ photos, bidirectionalMatch f.value p.studentId) ∧
      ((matchRecord photos r).profilePhoto.isSome = true →
        (matchRecord photos r).photoMatched = true ∧
        ∃ p ∈ photos, bidirectionalMatch f.value p.studentId ∧
          (matchRecord photos r).profilePhoto = some p.photoUrl) ∧
      ((matchRecord photos r).profilePhoto.isSome = false → matchRecord photos r = r)) ∧
    (∀ (photos : List PhotoMapping) (r : BulkRecord) (s : String),
      r.profilePhoto = some s → s ≠ "" → matchRecord photos r = r) := by
  constructor
  · intro photos r f hf hv hp
    have hfv : (f.value == "") = false := beq_eq_false_iff_ne.mpr hv
    have htr : optTruthy r.profilePhoto = false := by rw [hp]; rfl
    cases hfind : photos.find? (jsPhotoMatch f.value) with
    | none =>
      have hres : matchRecord photos r = r := by
        simp [matchRecord, hf, hfv, hfind]
      have hnone : ∀ p ∈ photos, ¬ bidirectionalMatch f.value p.studentId := by
        intro p hpp hb
        exact absurd ((jsPhotoMatch_iff f.value p).mpr hb)
          (by simpa using List.find?_eq_none.mp hfind p hpp)
      refine ⟨?_, ?_, fun _ => hres⟩
      · rw [hres, hp]
        simp only [Option.isSome_none]
        constructor
        · intro hfalse
          exact absurd hfalse (by simp)
        · rintro ⟨p, hpp, hb⟩
          exact absurd hb (hnone p hpp)
      · rw [hres, hp]
        intro hfalse
        exact absurd hfalse (by simp)
    | some p =>
      have hres : matchRecord photos r =
          { r with profilePhoto := some p.photoUrl, photoMatched := true } := by
        simp [matchRecord, hf, hfv, hfind, htr]
      have hmatch : bidirectionalMatch f.value p.studentId :=
        (jsPhotoMatch_iff f.value p).mp (List.find?_some hfind)
      have hmem : p ∈ photos := List.mem_of_find?_eq_some hfind
      refine ⟨?_, fun _ => ⟨by rw [hres], p, hmem, hmatch, by rw [hres]⟩, ?_⟩
      · rw [hres]
        constructor
        · intro _
          exact ⟨p, hmem, hmatch⟩
        · intro _
          rfl
      · rw [hres]
        intro hfalse
        exact absurd hfalse (by simp)
  · intro photos r s hp hs
    have htr : optTruthy r.profilePhoto = true := by
      rw [hp]
      simpa [optTruthy] using hs
    cases hsf : studentIdField r with
    | none => simp [matchRecord, hsf]
    | some f =>
      by_cases hfv : f.value == ""
      · simp [matchRecord, hsf, hfv]
      · cases hfind : photos.find? (jsPhotoMatch f.value) with
        | none => simp [matchRecord, hsf, hfv, hfind]
        | some p => simp [matchRecord, hsf, hfv, hfind, htr]

/-- Witness for claim C7: identifier `S001` against a photo named
`S001_front.jpg`, plus a record with a manually assigned photo. -/
theorem c7_bidirectional_nondestructive_matching_witness :
    ((((matchRecord [photoS001Front] recAsha).profilePhoto.isSome = true) ↔
      ∃ p ∈ [photoS001Front], bidirectionalMatch "S001" p.studentId) ∧
      ((matchRecord [photoS001Front] recAsha).profilePhoto.isSome = true →
        (matchRecord [photoS001Front] recAsha).photoMatched = true ∧
        ∃ p ∈ [photoS001Front], bidirectionalMatch "S001" p.studentId ∧
          (matchRecord [photoS001Front] recAsha).profilePhoto = some p.photoUrl) ∧
      ((matchRecord [photoS001Front] recAsha).profilePhoto.isSome = false →
        matchRecord [photoS001Front] recAsha = recAsha)) ∧
    matchRecord [photoS001Front] recManualPhoto = recManualPhoto :=
  ⟨c7_bidirectional_nondestructive_matching.1 [photoS001Front] recAsha
      ⟨"rollNo", "Roll No", "S001", true⟩ (by decide) (by decide) rfl,
    c7_bidirectional_nondestructive_matching.2 [photoS001Front] recManualPhoto
      "manual.png" rfl (by decide)⟩

/-- Claim C9 as amended: every record produced by the parser has initial
status `pending` and `photoMatched = false`, unconditionally — including
rows that seed `profilePhoto` from a detected photo-reference column. -/
theorem c9_parsed_records_pending_unmatched (category : CategoryType)
    (now : Nat) (text : String) (records : List BulkRecord) (r : BulkRecord)
    (hok : parseCSVText category now text = .ok records) (hr : r ∈ records) :
    r.status = .pending ∧ r.photoMatched = false := by
  simp only [parseCSVText] at hok
  split at hok
  · exact absurd hok (by simp)
  · rw [Except.ok.injEq] at hok
    rw [← hok] at hr
    exact parseDataRows_flags _ _ now 1 _ r hr

/-- Witness for claim C9, at the parse of a CSV with a photo column. -/
theorem c9_parsed_records_pending_unmatched_witness :
    (parsedDemo.getD 0 recAsha).status = .pending ∧
    (parsedDemo.getD 0 recAsha).photoMatched = false :=
  c9_parsed_records_pending_unmatched .school 0 "name,photo\nJohn,pic.jpg" parsedDemo
    (parsedDemo.getD 0 recAsha) (by rfl) (by decide)

/-- Claim C10: on any record list whose photo references are never the
empty string (true of every source of photos in the pipeline), the
validator's `photosMatched` counts exactly the records with a non-null
`profilePhoto` (whatever its source), `photosMissing` counts the records
with a null one, the two counts partition the record set, and exactly one
warning is emitted per record lacking a photo. -/
theorem c10_photo_counts (records : List BulkRecord)
    (h : ∀ r ∈ records, r.profilePhoto ≠ some "") :
    (validateRecords records).photosMatched =
      (records.filter (fun r => r.profilePhoto.isSome)).length ∧
    (validateRecords records).photosMissing =
      (records.filter (fun r => r.profilePhoto.isNone)).length ∧
    (validateRecords records).photosMatched + (validateRecords records).photosMissing =
      records.length ∧
    (validateRecords records).warnings.length = (validateRecords records).photosMissing := by
  have hcong : records.filter (fun r => optTruthy r.profilePhoto) =
      records.filter (fun r => r.profilePhoto.isSome) :=
    List.filter_congr fun r hr => optTruthy_eq_isSome (h r hr)
  have hcongN : records.filter (fun r => !optTruthy r.profilePhoto) =
      records.filter (fun r => r.profilePhoto.isNone) :=
    List.filter_congr fun r hr => by
      rw [optTruthy_eq_isSome (h r hr)]
      cases r.profilePhoto <;> rfl
  refine ⟨?_, ?_, ?_, ?_⟩
  · show (records.filter (fun r => optTruthy r.profilePhoto)).length = _
    rw [hcong]
  · show (records.filter (fun r => !optTruthy r.profilePhoto)).length = _
    rw [hcongN]
  · exact length_filter_add_length_filter_not records _
  · exact length_filterMap_warnings records

/-- Witness for claim C10, at a two-record list with one photo present. -/
theorem c10_photo_counts_witness :
    (validateRecords [recManualPhoto, recAsha]).photosMatched =
      ([recManualPhoto, recAsha].filter (fun r => r.profilePhoto.isSome)).length ∧
    (validateRecords [recManualPhoto, recAsha]).photosMissing =
      ([recManualPhoto, recAsha].filter (fun r => r.profilePhoto.isNone)).length ∧
    (validateRecords [recManualPhoto, recAsha]).photosMatched +
        (validateRecords [recManualPhoto, recAsha]).photosMissing =
      [recManualPhoto, recAsha].length ∧
    (validateRecords [recManualPhoto, recAsha]).warnings.length =
      (validateRecords [recManualPhoto, recAsha]).photosMissing :=
  c10_photo_counts [recManualPhoto, recAsha] (by decide)

end IdGenz
